import Mathlib

/-!
Shallow embedding of the persistence layer of the ionic-tasks repository
(file src/services/databaseService.ts, class DatabaseService) together with
theorems checking the natural-language specification against it.

Modelling conventions:
- Timestamps (the ISO string produced by new Date().toISOString() on the web
  branch and the DATETIME CURRENT_TIMESTAMP value on the native branch) are
  modelled as natural numbers; only their ordering and equality matter here.
- JS numbers used as identifiers are modelled as rationals, because the web
  branch computes Date.now() + Math.random(), a non-integer.
- The localStorage document under the fixed key is modelled as the list of
  task records it decodes to; a missing or malformed document decodes to [],
  matching getStoredTasks.
- The SQLite connection this.db is modelled as an Option: none is a null
  handle, as after closeDatabase.
- Fallible operations return Except DBError; a thrown JS Error is a .error.
-/

set_option autoImplicit false

namespace IonicTasks

/-- Errors thrown by the persistence layer. notFound models the thrown
Error with message Task not found; notInitialized models the thrown Error
with message SQLite database not initialized; imageReadFailed models the
FileReader error event that escapes convertImageToBase64 (see below). -/
inductive DBError where
  | notFound
  | notInitialized
  | imageReadFailed
deriving DecidableEq

/-- The ITask interface of databaseService.ts. Optional fields of the
interface are Option. -/
structure ITask where
  id : Option ℚ
  text : String
  image_filepath : String
  image_webview_path : Option String
  image_base64 : Option String
  completed : Bool
  created_at : Option ℕ
deriving DecidableEq

/-- The argument of addTask: Omit ITask id created_at. -/
structure NewTask where
  text : String
  image_filepath : String
  image_webview_path : Option String
  image_base64 : Option String
  completed : Bool
deriving DecidableEq

/-- The argument of updateTask: Partial of Omit ITask id created_at.
A field is some v when the partial update carries it and none when absent. -/
structure TaskUpdate where
  text : Option String
  image_filepath : Option String
  image_webview_path : Option String
  image_base64 : Option String
  completed : Option Bool
deriving DecidableEq

/-- The empty partial update. -/
def TaskUpdate.empty : TaskUpdate :=
  { text := none, image_filepath := none, image_webview_path := none
    image_base64 := none, completed := none }

/-- JS truthiness of an optional string: undefined and the empty string are
falsy. -/
def truthy : Option String → Bool
  | none => false
  | some s => s ≠ ""

/-- The JS expression a OR b (the double-pipe operator) on optional strings:
yields b exactly when a is falsy. -/
def jsOr (a b : Option String) : Option String :=
  match a with
  | none => b
  | some s => if s = "" then b else some s

/-- The per-call environment of the web branch of addTask: Date.now() in
milliseconds and the Math.random() draw, both read once per call. The
created_at timestamp of the call is the same instant nowMs. -/
structure WebEnv where
  nowMs : ℕ
  rand : ℚ
deriving DecidableEq

/-- generateId of databaseService.ts: Date.now() + Math.random(). -/
def generateId (e : WebEnv) : ℚ := (e.nowMs : ℚ) + e.rand

/-- The JS startsWith test on strings, as character-list comparison. -/
def strStartsWith (s p : String) : Bool := p.data.isPrefixOf s.data

/-- Outcome of the fetch-blob-FileReader pipeline of convertImageToBase64
for a given image path, an input of the model: either the fetch or blob step
throws, or the FileReader fires its error event, or the reader succeeds with
a data URL. -/
inductive FetchOutcome where
  | fetchFails
  | readerFails
  | readerSucceeds (dataUrl : String)
deriving DecidableEq

/-- convertImageToBase64 of databaseService.ts. An empty path returns the
empty string; a path already starting with data: is returned as is; a
failure of the awaited fetch or blob steps is absorbed by the catch block,
which returns the empty string. A FileReader error, however, rejects the
promise that the function has already returned from inside the try block,
so the catch block never sees it and the rejection propagates to the
caller: that path is a .error here. -/
def convertImageToBase64 (imagePath : String) (f : FetchOutcome) :
    Except DBError String :=
  if imagePath = "" then .ok ""
  else if strStartsWith imagePath "data:" then .ok imagePath
  else
    match f with
    | .fetchFails => .ok ""
    | .readerFails => .error .imageReadFailed
    | .readerSucceeds s => .ok s

/-- The record built by the web branch of addTask: the spread of the input
task, then id, created_at, completed false and the computed inline image,
in that order, so the last four override the input. -/
def mkWebTask (task : NewTask) (e : WebEnv) (b64 : String) : ITask :=
  { id := some (generateId e)
    text := task.text
    image_filepath := task.image_filepath
    image_webview_path := task.image_webview_path
    image_base64 := some b64
    completed := false
    created_at := some e.nowMs }

/-- Web branch of addTask: computes the inline image (empty unless the
transient webview path is truthy, in which case convertImageToBase64 runs
and its rejection is rethrown by the outer catch), then unshifts the new
record onto the stored collection and returns the generated id. -/
def addTaskWeb (store : List ITask) (task : NewTask) (e : WebEnv)
    (f : FetchOutcome) : Except DBError (ℚ × List ITask) :=
  match (if truthy task.image_webview_path then
            convertImageToBase64 (task.image_webview_path.getD "") f
         else .ok "") with
  | .error err => .error err
  | .ok b64 => .ok (generateId e, mkWebTask task e b64 :: store)

/-- Web branch of getAllTasks: maps every stored record, replacing the
webview path by the inline image when the latter is truthy. -/
def getAllTasksWeb (store : List ITask) : List ITask :=
  store.map fun t =>
    { t with image_webview_path := jsOr t.image_base64 t.image_webview_path }

/-- Web branch of deleteTask: keeps the records whose id differs from the
argument, then writes the collection back. -/
def deleteTaskWeb (store : List ITask) (q : ℚ) : List ITask :=
  store.filter fun t => t.id ≠ some q

/-- The object spread of the found record with the partial update: a field
carried by the update overrides, every other field is kept. -/
def applyUpdates (t : ITask) (u : TaskUpdate) : ITask :=
  { t with
    text := u.text.getD t.text
    image_filepath := u.image_filepath.getD t.image_filepath
    image_webview_path := match u.image_webview_path with
      | some s => some s
      | none => t.image_webview_path
    image_base64 := match u.image_base64 with
      | some s => some s
      | none => t.image_base64
    completed := u.completed.getD t.completed }

/-- Web branch of updateTask. findIndex locates the first record with the
given id; a miss throws Task not found; otherwise the record is replaced by
its spread with the update and the whole collection is written back. The
second component counts the saveTasksToStorage writes performed. -/
def updateTaskWeb (store : List ITask) (q : ℚ) (u : TaskUpdate) :
    Except DBError (List ITask × ℕ) :=
  let i := store.findIdx fun t => t.id = some q
  match store[i]? with
  | none => .error .notFound
  | some t => .ok (store.set i (applyUpdates t u), 1)

/-- Web branch of toggleTaskCompletion: findIndex, throw Task not found on
a miss, otherwise negate the completed flag in place and write back. -/
def toggleTaskWeb (store : List ITask) (q : ℚ) :
    Except DBError (List ITask) :=
  let i := store.findIdx fun t => t.id = some q
  match store[i]? with
  | none => .error .notFound
  | some t => .ok (store.set i { t with completed := !t.completed })

/-- One row of the native tasks table. completed is the stored integer
flag; created_at is the DATETIME value (modelled as a natural number). -/
structure SqlRow where
  id : ℕ
  text : String
  image_filepath : String
  image_webview_path : String
  image_base64 : String
  completed : ℕ
  created_at : ℕ
deriving DecidableEq

/-- The native store: the rows of the tasks table plus the AUTOINCREMENT
sequence value, the id the next INSERT receives. -/
structure NativeDB where
  nextId : ℕ
  rows : List SqlRow
deriving DecidableEq

/-- The INSERT of the native branch of addTask: binds text and
image_filepath as given, the optional strings with an empty-string
fallback, and the literal 0 for completed; the engine assigns the id and
the created_at timestamp and reports lastId. -/
def addRowNative (d : NativeDB) (task : NewTask) (now : ℕ) : ℕ × NativeDB :=
  let row : SqlRow :=
    { id := d.nextId
      text := task.text
      image_filepath := task.image_filepath
      image_webview_path := task.image_webview_path.getD ""
      image_base64 := task.image_base64.getD ""
      completed := 0
      created_at := now }
  (d.nextId, { nextId := d.nextId + 1, rows := d.rows ++ [row] })

/-- Native branch of addTask: fails on a null handle, otherwise inserts. -/
def addTaskNative (db : Option NativeDB) (task : NewTask) (now : ℕ) :
    Except DBError (ℕ × NativeDB) :=
  match db with
  | none => .error .notInitialized
  | some d => .ok (addRowNative d task now)

/-- The ORDER BY created_at DESC comparison: a precedes b when the
created_at of b is at most that of a. -/
def rowDescLe (a b : SqlRow) : Prop := b.created_at ≤ a.created_at

instance : DecidableRel rowDescLe := fun a b => Nat.decLe b.created_at a.created_at

instance : IsTotal SqlRow rowDescLe := ⟨fun a b => le_total b.created_at a.created_at⟩

instance : IsTrans SqlRow rowDescLe := ⟨fun _ _ _ h1 h2 => le_trans h2 h1⟩

/-- The row-to-record mapping of the native branch of getAllTasks,
including the Boolean coercion of the completed flag. -/
def rowToTask (r : SqlRow) : ITask :=
  { id := some (r.id : ℚ)
    text := r.text
    image_filepath := r.image_filepath
    image_webview_path := some r.image_webview_path
    image_base64 := some r.image_base64
    completed := r.completed ≠ 0
    created_at := some r.created_at }

/-- Native branch of getAllTasks: fails on a null handle, otherwise SELECT
ordered by created_at descending, each row mapped to a record. -/
def getAllTasksNative (db : Option NativeDB) : Except DBError (List ITask) :=
  match db with
  | none => .error .notInitialized
  | some d => .ok ((List.insertionSort rowDescLe d.rows).map rowToTask)

/-- Native branch of deleteTask: DELETE FROM tasks WHERE id matches the
bound parameter; deleting zero rows is not an error. -/
def deleteTaskNative (db : Option NativeDB) (q : ℚ) :
    Except DBError NativeDB :=
  match db with
  | none => .error .notInitialized
  | some d => .ok { d with rows := d.rows.filter fun r => (r.id : ℚ) ≠ q }

/-- Whether the native branch of updateTask puts any column in its SET
list: it inspects text, image_filepath, image_webview_path and completed,
and never image_base64. -/
def nativeUpdateFields (u : TaskUpdate) : Bool :=
  u.text.isSome || u.image_filepath.isSome ||
    u.image_webview_path.isSome || u.completed.isSome

/-- The effect of the dynamically built UPDATE statement on a matching row:
exactly the columns in the SET list change; completed is bound as 1 or 0;
image_base64 is never in the list. -/
def applyUpdatesRow (r : SqlRow) (u : TaskUpdate) : SqlRow :=
  { r with
    text := u.text.getD r.text
    image_filepath := u.image_filepath.getD r.image_filepath
    image_webview_path := u.image_webview_path.getD r.image_webview_path
    completed := match u.completed with
      | some b => if b then 1 else 0
      | none => r.completed }

/-- The rows of the table after the UPDATE statement of the native branch
of updateTask: every row whose id matches the bound parameter receives the
SET list. -/
def updatedRows (rows : List SqlRow) (q : ℚ) (u : TaskUpdate) : List SqlRow :=
  rows.map fun r => if (r.id : ℚ) = q then applyUpdatesRow r u else r

/-- Native branch of updateTask: fails on a null handle; with an empty SET
list it returns before touching the database; otherwise one UPDATE runs,
affecting every row whose id matches (possibly none, which is not an
error). The second component counts the statements run. -/
def updateTaskNative (db : Option NativeDB) (q : ℚ) (u : TaskUpdate) :
    Except DBError (NativeDB × ℕ) :=
  match db with
  | none => .error .notInitialized
  | some d =>
    if nativeUpdateFields u then
      .ok ({ d with rows := updatedRows d.rows q u }, 1)
    else
      .ok (d, 0)

/-- SQLite NOT on the stored completed integer: any nonzero value goes to
0 and 0 goes to 1. -/
def sqlNot (n : ℕ) : ℕ := if n = 0 then 1 else 0

/-- The rows of the table after the UPDATE of the native branch of
toggleTaskCompletion: completed is replaced by its SQL negation on every
row whose id matches. -/
def toggledRows (rows : List SqlRow) (q : ℚ) : List SqlRow :=
  rows.map fun r =>
    if (r.id : ℚ) = q then { r with completed := sqlNot r.completed } else r

/-- Native branch of toggleTaskCompletion: UPDATE tasks SET completed = NOT
completed WHERE id matches; zero affected rows is not an error. -/
def toggleTaskNative (db : Option NativeDB) (q : ℚ) :
    Except DBError NativeDB :=
  match db with
  | none => .error .notInitialized
  | some d => .ok { d with rows := toggledRows d.rows q }

/-- The whole service state: the platform flag fixed at construction, the
localStorage document and the SQLite handle. -/
structure ServiceState where
  isWeb : Bool
  webStore : List ITask
  db : Option NativeDB
deriving DecidableEq

/-- addTask of the service: dispatch on the platform flag. The native id is
returned as a JS number. -/
def addTask (s : ServiceState) (task : NewTask) (e : WebEnv)
    (f : FetchOutcome) (now : ℕ) : Except DBError (ℚ × ServiceState) :=
  if s.isWeb then
    (addTaskWeb s.webStore task e f).map fun p =>
      (p.1, { s with webStore := p.2 })
  else
    (addTaskNative s.db task now).map fun p =>
      ((p.1 : ℚ), { s with db := some p.2 })

/-- getAllTasks of the service. -/
def getAllTasks (s : ServiceState) : Except DBError (List ITask) :=
  if s.isWeb then .ok (getAllTasksWeb s.webStore) else getAllTasksNative s.db

/-- deleteTask of the service. -/
def deleteTask (s : ServiceState) (q : ℚ) : Except DBError ServiceState :=
  if s.isWeb then .ok { s with webStore := deleteTaskWeb s.webStore q }
  else (deleteTaskNative s.db q).map fun d => { s with db := some d }

/-- updateTask of the service; the natural number counts backend writes. -/
def updateTask (s : ServiceState) (q : ℚ) (u : TaskUpdate) :
    Except DBError (ServiceState × ℕ) :=
  if s.isWeb then
    (updateTaskWeb s.webStore q u).map fun p =>
      ({ s with webStore := p.1 }, p.2)
  else
    (updateTaskNative s.db q u).map fun p =>
      ({ s with db := some p.1 }, p.2)

/-- toggleTaskCompletion of the service. -/
def toggleTaskCompletion (s : ServiceState) (q : ℚ) :
    Except DBError ServiceState :=
  if s.isWeb then
    (toggleTaskWeb s.webStore q).map fun st => { s with webStore := st }
  else
    (toggleTaskNative s.db q).map fun d => { s with db := some d }

/-- closeDatabase of the service: on the web branch both the guard isWeb
false and the null check fail, so nothing happens; on the native branch the
connection is closed and the handle nulled, and a second call finds the
handle already null and only logs. -/
def closeDatabase (s : ServiceState) : ServiceState :=
  if s.isWeb then s else { s with db := none }

/-- clearAllTasks of the service: it removes the localStorage document
unconditionally, on both platforms, and never touches the SQLite table. -/
def clearAllTasks (s : ServiceState) : ServiceState :=
  { s with webStore := [] }

/-- One web addTask call of a run: its argument and its environment. -/
structure WebAddCall where
  task : NewTask
  env : WebEnv
  fetch : FetchOutcome
deriving DecidableEq

/-- Runs a sequence of web addTask calls, stopping at the first failure. -/
def runAddsWeb : List WebAddCall → List ITask → Except DBError (List ITask)
  | [], s => .ok s
  | c :: cs, s =>
    match addTaskWeb s c.task c.env c.fetch with
    | .error e => .error e
    | .ok p => runAddsWeb cs p.2

/-- One native addTask call of a run: its argument and the timestamp the
engine assigns. -/
structure NativeAddCall where
  task : NewTask
  now : ℕ
deriving DecidableEq

/-- Runs a sequence of native inserts, collecting the returned ids. -/
def runAddsNative : List NativeAddCall → NativeDB → List ℕ × NativeDB
  | [], d => ([], d)
  | c :: cs, d =>
    let p := addRowNative d c.task c.now
    let rest := runAddsNative cs p.2
    (p.1 :: rest.1, rest.2)

/-! ### Sample fixtures used by concrete theorems -/

/-- A sample input task with no image. -/
def sampleTask : NewTask :=
  { text := "a", image_filepath := "", image_webview_path := none
    image_base64 := none, completed := false }

/-- A sample call environment. -/
def sampleEnv : WebEnv := { nowMs := 1000, rand := 0 }

/-- A sample stored native row. -/
def sampleRow : SqlRow :=
  { id := 1, text := "a", image_filepath := "", image_webview_path := ""
    image_base64 := "", completed := 0, created_at := 5 }

/-- A sample stored web record. -/
def sampleStored : ITask :=
  { id := some 1, text := "a", image_filepath := "", image_webview_path := none
    image_base64 := none, completed := false, created_at := some 5 }

/-! ### Helper lemmas -/

theorem findIdx_append_cons {α : Type} (p : α → Bool) (pre post : List α)
    (t : α) (hpre : ∀ x ∈ pre, p x = false) (ht : p t = true) :
    (pre ++ t :: post).findIdx p = pre.length := by
  rw [List.findIdx_append, List.findIdx_eq_length_of_false hpre]
  simp [List.findIdx_cons, ht]

theorem getElem?_append_cons {α : Type} (pre post : List α) (t : α) :
    (pre ++ t :: post)[pre.length]? = some t := by
  induction pre with
  | nil => simp
  | cons a pre ih => simpa using ih

theorem set_append_cons {α : Type} (pre post : List α) (t x : α) :
    (pre ++ t :: post).set pre.length x = pre ++ x :: post := by
  rw [List.set_append_right _ _ le_rfl]
  simp

/-- The findIndex predicate of the web branch is false on a record whose id
differs from the target. -/
theorem webFind_false {t : ITask} {q : ℚ} (h : t.id ≠ some q) :
    (fun x : ITask => decide (x.id = some q)) t = false := by
  simp [h]

theorem findIdx_webStore_absent (store : List ITask) (q : ℚ)
    (h : ∀ t ∈ store, t.id ≠ some q) :
    store[store.findIdx fun t => t.id = some q]? = (none : Option ITask) := by
  have hlen : store.findIdx (fun t => t.id = some q) = store.length :=
    List.findIdx_eq_length_of_false fun x hx => webFind_false (h x hx)
  rw [hlen]
  simp

theorem findIdx_webStore_found (pre post : List ITask) (t : ITask) (q : ℚ)
    (ht : t.id = some q) (hpre : ∀ x ∈ pre, x.id ≠ some q) :
    (pre ++ t :: post).findIdx (fun x => x.id = some q) = pre.length := by
  apply findIdx_append_cons
  · exact fun x hx => webFind_false (hpre x hx)
  · simp [ht]

/-- Web updateTask on a store containing the target: the first matching
record is replaced by its spread with the update; one write happens. -/
theorem updateTaskWeb_found (pre post : List ITask) (t : ITask) (q : ℚ)
    (u : TaskUpdate) (ht : t.id = some q) (hpre : ∀ x ∈ pre, x.id ≠ some q) :
    updateTaskWeb (pre ++ t :: post) q u =
      .ok (pre ++ applyUpdates t u :: post, 1) := by
  unfold updateTaskWeb
  simp only [findIdx_webStore_found pre post t q ht hpre, getElem?_append_cons,
    set_append_cons]

/-- Web toggleTaskCompletion on a store containing the target. -/
theorem toggleTaskWeb_found (pre post : List ITask) (t : ITask) (q : ℚ)
    (ht : t.id = some q) (hpre : ∀ x ∈ pre, x.id ≠ some q) :
    toggleTaskWeb (pre ++ t :: post) q =
      .ok (pre ++ { t with completed := !t.completed } :: post) := by
  unfold toggleTaskWeb
  simp only [findIdx_webStore_found pre post t q ht hpre, getElem?_append_cons,
    set_append_cons]

/-- A native statement whose WHERE clause matches no row leaves the row
list unchanged. -/
theorem map_rows_absent (rows : List SqlRow) (q : ℚ) (f : SqlRow → SqlRow)
    (hd : ∀ r ∈ rows, ((r.id : ℚ)) ≠ q) :
    (rows.map fun r => if ((r.id : ℚ)) = q then f r else r) = rows := by
  have h1 : (rows.map fun r => if ((r.id : ℚ)) = q then f r else r) =
      rows.map fun r => r :=
    List.map_congr_left fun r hr => by simp [hd r hr]
  rw [h1, List.map_id']

/-- sqlNot is an involution on the 0/1 flags the code ever stores. -/
theorem sqlNot_sqlNot {n : ℕ} (h : n ≤ 1) : sqlNot (sqlNot n) = n := by
  have h01 : n = 0 ∨ n = 1 := by omega
  rcases h01 with h0 | h0 <;> simp [h0, sqlNot]

/-- updatedRows with no matching row is the identity. -/
theorem updatedRows_absent (rows : List SqlRow) (q : ℚ) (u : TaskUpdate)
    (hd : ∀ r ∈ rows, ((r.id : ℚ)) ≠ q) : updatedRows rows q u = rows :=
  map_rows_absent rows q _ hd

/-- toggledRows with no matching row is the identity. -/
theorem toggledRows_absent (rows : List SqlRow) (q : ℚ)
    (hd : ∀ r ∈ rows, ((r.id : ℚ)) ≠ q) : toggledRows rows q = rows :=
  map_rows_absent rows q _ hd

/-- Applying toggledRows twice restores the rows, provided every stored
completed flag is 0 or 1, which holds on every code path that writes the
column. -/
theorem toggledRows_involution (rows : List SqlRow) (q : ℚ)
    (hc : ∀ r ∈ rows, r.completed ≤ 1) :
    toggledRows (toggledRows rows q) q = rows := by
  unfold toggledRows
  rw [List.map_map]
  have hpt : ∀ r ∈ rows, ((fun r : SqlRow => if ((r.id : ℚ)) = q then
      { r with completed := sqlNot r.completed } else r) ∘ (fun r : SqlRow =>
        if ((r.id : ℚ)) = q then { r with completed := sqlNot r.completed }
        else r)) r = (fun r : SqlRow => r) r := by
    intro r hr
    rcases eq_or_ne ((r.id : ℚ)) q with heq | hne
    · simp [Function.comp, heq, sqlNot_sqlNot (hc r hr)]
    · simp [Function.comp, hne]
  rw [List.map_congr_left hpt, List.map_id']

/-! ### C1 -/

/-- C1 (amended): updateTask and toggleTaskCompletion on an identifier
absent from the store fail with NotFound on the browser backend; on the
native backend they succeed as zero-row statements that leave the table
unchanged, rather than failing. -/
theorem C1_missing_id (store : List ITask) (q : ℚ) (u : TaskUpdate)
    (hstore : ∀ t ∈ store, t.id ≠ some q)
    (d : NativeDB) (q2 : ℚ) (u2 : TaskUpdate)
    (hd : ∀ r ∈ d.rows, ((r.id : ℚ)) ≠ q2) :
    updateTaskWeb store q u = .error .notFound ∧
    toggleTaskWeb store q = .error .notFound ∧
    updateTaskNative (some d) q2 u2 =
      .ok (d, if nativeUpdateFields u2 then 1 else 0) ∧
    toggleTaskNative (some d) q2 = .ok d := by
  refine ⟨?_, ?_, ?_, ?_⟩
  · unfold updateTaskWeb
    simp only [findIdx_webStore_absent store q hstore]
  · unfold toggleTaskWeb
    simp only [findIdx_webStore_absent store q hstore]
  · unfold updateTaskNative
    rcases h : nativeUpdateFields u2 with _ | _
    · simp [h]
    · simp [h, updatedRows_absent d.rows q2 u2 hd]
  · simp [toggleTaskNative, toggledRows_absent d.rows q2 hd]

/-- Witness for C1 at a concrete input. -/
theorem C1_wit :
    updateTaskWeb [] 0 TaskUpdate.empty = .error .notFound ∧
    toggleTaskWeb [] 0 = .error .notFound ∧
    updateTaskNative (some ⟨1, []⟩) 0 TaskUpdate.empty =
      .ok (⟨1, []⟩, if nativeUpdateFields TaskUpdate.empty then 1 else 0) ∧
    toggleTaskNative (some ⟨1, []⟩) 0 = .ok ⟨1, []⟩ :=
  C1_missing_id [] 0 TaskUpdate.empty (by simp) ⟨1, []⟩ 0 TaskUpdate.empty
    (by simp)

/-- Counterexample for C1 as frozen: on the native backend an update or a
toggle aimed at an identifier absent from the store does not fail with
NotFound; both succeed. -/
theorem C1_cex :
    updateTaskNative (some ⟨1, []⟩) 5
        { text := some "x", image_filepath := none, image_webview_path := none
          image_base64 := none, completed := none } ≠
      .error .notFound ∧
    toggleTaskNative (some ⟨1, []⟩) 5 ≠ .error .notFound := by
  constructor <;> simp [updateTaskNative, toggleTaskNative, nativeUpdateFields]

/-! ### C3 -/

/-- C3 (amended): after closeDatabase on the native backend the handle is
null, closing again is safe, and every subsequent operation fails with
NotInitialized; on the browser backend closeDatabase changes nothing, so
subsequent operations succeed exactly as before the close instead of
failing. -/
theorem C3_close_native_only (s : ServiceState) :
    (s.isWeb = false →
      ∀ (task : NewTask) (e : WebEnv) (f : FetchOutcome) (now : ℕ) (q : ℚ)
        (u : TaskUpdate),
      closeDatabase (closeDatabase s) = closeDatabase s ∧
      addTask (closeDatabase s) task e f now = .error .notInitialized ∧
      getAllTasks (closeDatabase s) = .error .notInitialized ∧
      deleteTask (closeDatabase s) q = .error .notInitialized ∧
      updateTask (closeDatabase s) q u = .error .notInitialized ∧
      toggleTaskCompletion (closeDatabase s) q = .error .notInitialized) ∧
    (s.isWeb = true → closeDatabase s = s) := by
  constructor
  · intro hw task e f now q u
    refine ⟨?_, ?_, ?_, ?_, ?_, ?_⟩ <;>
      simp [closeDatabase, hw, addTask, getAllTasks, deleteTask, updateTask,
        toggleTaskCompletion, addTaskNative, getAllTasksNative,
        deleteTaskNative, updateTaskNative, toggleTaskNative, Except.map]
  · intro hw
    simp [closeDatabase, hw]

/-- Witness for C3 at a concrete input. -/
theorem C3_wit :
    getAllTasks (closeDatabase ⟨false, [], some ⟨1, []⟩⟩) =
      .error .notInitialized :=
  ((C3_close_native_only ⟨false, [], some ⟨1, []⟩⟩).1 rfl sampleTask sampleEnv
    .fetchFails 0 0 TaskUpdate.empty).2.2.1

/-- Counterexample for C3 as frozen: on the browser backend an operation
after closeDatabase does not fail with NotInitialized; it succeeds. -/
theorem C3_cex :
    getAllTasks (closeDatabase ⟨true, [], none⟩) = .ok [] ∧
    getAllTasks (closeDatabase ⟨true, [], none⟩) ≠
      .error .notInitialized := by
  constructor
  · rfl
  · intro h
    cases h

/-! ### C4 -/

/-- C4 (amended): clearAllTasks unconditionally removes the browser
document, so on the browser backend a following getAllTasks returns the
empty collection; but it never touches the native store, whose handle and
rows survive the call unchanged. -/
theorem C4_clear_web_only (s : ServiceState) :
    (s.isWeb = true → getAllTasks (clearAllTasks s) = .ok []) ∧
    (clearAllTasks s).webStore = [] ∧
    (clearAllTasks s).db = s.db := by
  refine ⟨fun hw => ?_, rfl, rfl⟩
  simp [clearAllTasks, getAllTasks, hw, getAllTasksWeb]

/-- Witness for C4 at a concrete input. -/
theorem C4_wit :
    getAllTasks (clearAllTasks ⟨true, [sampleStored], none⟩) = .ok [] :=
  (C4_clear_web_only ⟨true, [sampleStored], none⟩).1 rfl

/-- Counterexample for C4 as frozen: on the native backend getAllTasks
after clearAllTasks still returns the stored row, not the empty
collection. -/
theorem C4_cex :
    getAllTasks (clearAllTasks ⟨false, [], some ⟨2, [sampleRow]⟩⟩) =
      .ok [rowToTask sampleRow] ∧
    getAllTasks (clearAllTasks ⟨false, [], some ⟨2, [sampleRow]⟩⟩) ≠
      .ok [] := by
  constructor
  · rfl
  · intro h
    simp [clearAllTasks, getAllTasks, getAllTasksNative] at h

/-! ### C7 -/

/-- C7 (amended): for an existing identifier, updateTask applies exactly
the supplied fields to the first matching record, leaving its other fields
and all other records unchanged. On the browser backend every successful
update, the empty one included, performs one whole-document write that
leaves the stored record byte-for-byte unchanged when the update is empty;
only the native backend short-circuits an empty update to zero statements.
The native backend also never applies the image_base64 field: an update
carrying only image_base64 runs zero statements. -/
theorem C7_update_frame (pre post : List ITask) (t : ITask) (q : ℚ)
    (u : TaskUpdate) (ht : t.id = some q) (hpre : ∀ x ∈ pre, x.id ≠ some q)
    (d : NativeDB) (q2 : ℚ) (u2 : TaskUpdate) :
    updateTaskWeb (pre ++ t :: post) q u =
      .ok (pre ++ applyUpdates t u :: post, 1) ∧
    (applyUpdates t u).text = u.text.getD t.text ∧
    (applyUpdates t u).image_filepath =
      u.image_filepath.getD t.image_filepath ∧
    (applyUpdates t u).completed = u.completed.getD t.completed ∧
    (applyUpdates t u).id = t.id ∧
    (applyUpdates t u).created_at = t.created_at ∧
    applyUpdates t TaskUpdate.empty = t ∧
    updateTaskWeb (pre ++ t :: post) q TaskUpdate.empty =
      .ok (pre ++ t :: post, 1) ∧
    updateTaskNative (some d) q2 TaskUpdate.empty = .ok (d, 0) ∧
    (nativeUpdateFields u2 = true →
      updateTaskNative (some d) q2 u2 =
        .ok ({ d with rows := updatedRows d.rows q2 u2 }, 1)) ∧
    (∀ r : SqlRow, (applyUpdatesRow r u2).image_base64 = r.image_base64) ∧
    (∀ b : String,
      updateTaskNative (some d) q2
          { text := none, image_filepath := none, image_webview_path := none
            image_base64 := some b, completed := none } =
        .ok (d, 0)) := by
  refine ⟨updateTaskWeb_found pre post t q u ht hpre, rfl, rfl, rfl, rfl, rfl,
    rfl, ?_, rfl, ?_, fun r => rfl, fun b => rfl⟩
  · rw [updateTaskWeb_found pre post t q TaskUpdate.empty ht hpre]
    rfl
  · intro h
    simp [updateTaskNative, h]

/-- Witness for C7 at a concrete input. -/
theorem C7_wit :
    updateTaskWeb [sampleStored] 1
        { text := some "x", image_filepath := none, image_webview_path := none
          image_base64 := none, completed := none } =
      .ok ([applyUpdates sampleStored
        { text := some "x", image_filepath := none, image_webview_path := none
          image_base64 := none, completed := none }], 1) :=
  (C7_update_frame [] [] sampleStored 1
    { text := some "x", image_filepath := none, image_webview_path := none
      image_base64 := none, completed := none }
    rfl (by simp) ⟨2, [sampleRow]⟩ 1 TaskUpdate.empty).1

/-- Counterexample for C7 as frozen: on the browser backend an empty update
on an existing record performs one write, not zero; and on the native
backend an update carrying only image_base64 applies nothing at all even
though the field is present in the partial update. -/
theorem C7_cex :
    updateTaskWeb [sampleStored] 1 TaskUpdate.empty =
      .ok ([sampleStored], 1) ∧
    updateTaskWeb [sampleStored] 1 TaskUpdate.empty ≠
      .ok ([sampleStored], 0) ∧
    updateTaskNative (some ⟨2, [sampleRow]⟩) 1
        { text := none, image_filepath := none, image_webview_path := none
          image_base64 := some "inline", completed := none } =
      .ok (⟨2, [sampleRow]⟩, 0) := by
  have h1 : updateTaskWeb [sampleStored] 1 TaskUpdate.empty =
      .ok ([sampleStored], 1) := by
    have h := updateTaskWeb_found [] [] sampleStored 1 TaskUpdate.empty rfl
      (by simp)
    simpa using h
  refine ⟨h1, ?_, rfl⟩
  rw [h1]
  intro h
  cases h

/-! ### C8 -/

/-- C8 (confirmed): deleteTask always succeeds on both backends; after it,
getAllTasks never includes the identifier; deleting an absent identifier
leaves the store unchanged, so a second delete of the same identifier is a
successful no-op. -/
theorem C8_delete_idem (store : List ITask) (q : ℚ)
    (habs : ∀ t ∈ store, t.id ≠ some q)
    (store2 : List ITask) (q2 : ℚ) (d : NativeDB) (q3 : ℚ) :
    (∀ t ∈ getAllTasksWeb (deleteTaskWeb store2 q2), t.id ≠ some q2) ∧
    deleteTaskWeb (deleteTaskWeb store2 q2) q2 = deleteTaskWeb store2 q2 ∧
    deleteTaskWeb store q = store ∧
    (∃ d2 : NativeDB, deleteTaskNative (some d) q3 = .ok d2 ∧
      (∀ r ∈ d2.rows, ((r.id : ℚ)) ≠ q3) ∧
      deleteTaskNative (some d2) q3 = .ok d2) := by
  refine ⟨?_, ?_, ?_, ⟨{ d with rows := d.rows.filter (fun r =>
    ((r.id : ℚ)) ≠ q3) }, rfl, ?_, ?_⟩⟩
  · intro t htmem
    unfold getAllTasksWeb deleteTaskWeb at htmem
    rcases List.mem_map.1 htmem with ⟨x, hx, hxt⟩
    have hxid : x.id ≠ some q2 := by
      simpa using (List.mem_filter.1 hx).2
    rw [← hxt]
    exact hxid
  · unfold deleteTaskWeb
    rw [List.filter_eq_self]
    intro a ha
    exact (List.mem_filter.1 ha).2
  · unfold deleteTaskWeb
    rw [List.filter_eq_self]
    intro a ha
    simpa using habs a ha
  · intro r hr
    simpa using (List.mem_filter.1 hr).2
  · have : (d.rows.filter fun r => ((r.id : ℚ)) ≠ q3).filter
        (fun r => ((r.id : ℚ)) ≠ q3) = d.rows.filter fun r => ((r.id : ℚ)) ≠ q3 := by
      rw [List.filter_eq_self]
      intro a ha
      exact (List.mem_filter.1 ha).2
    simp [deleteTaskNative, this]

/-- Witness for C8 at a concrete input. -/
theorem C8_wit :
    deleteTaskWeb [sampleStored] 0 = [sampleStored] :=
  (C8_delete_idem [sampleStored] 0 (by simp [sampleStored]) [] 0 ⟨1, []⟩
    0).2.2.1

/-! ### C9 -/

/-- C9 (confirmed): toggling completion twice on a present identifier
restores the store exactly, on both backends; on the native backend the
stored flag is one of 0 and 1 on every code path, under which SQL NOT is an
involution. -/
theorem C9_toggle_involution (pre post : List ITask) (t : ITask) (q : ℚ)
    (ht : t.id = some q) (hpre : ∀ x ∈ pre, x.id ≠ some q)
    (d : NativeDB) (q2 : ℚ) (hc : ∀ r ∈ d.rows, r.completed ≤ 1) :
    (∀ s2, toggleTaskWeb (pre ++ t :: post) q = .ok s2 →
      toggleTaskWeb s2 q = .ok (pre ++ t :: post)) ∧
    (∀ d2, toggleTaskNative (some d) q2 = .ok d2 →
      toggleTaskNative (some d2) q2 = .ok d) := by
  constructor
  · intro s2 h1
    rw [toggleTaskWeb_found pre post t q ht hpre] at h1
    cases h1
    have h2 := toggleTaskWeb_found pre post
      { t with completed := !t.completed } q ht hpre
    simpa [Bool.not_not] using h2
  · intro d2 h1
    have h2 : d2 = { d with rows := toggledRows d.rows q2 } := by
      have hr : toggleTaskNative (some d) q2 =
          .ok { d with rows := toggledRows d.rows q2 } := rfl
      rw [hr] at h1
      exact (Except.ok.inj h1).symm
    subst h2
    have h3 : toggleTaskNative (some { d with rows := toggledRows d.rows q2 })
        q2 = .ok { d with rows := toggledRows (toggledRows d.rows q2) q2 } :=
      rfl
    rw [h3, toggledRows_involution d.rows q2 hc]

/-- Witness for C9 at a concrete input. -/
theorem C9_wit :
    toggleTaskWeb [{ sampleStored with completed := !sampleStored.completed }]
        1 = .ok [sampleStored] :=
  (C9_toggle_involution [] [] sampleStored 1 rfl (by simp) ⟨2, [sampleRow]⟩ 1
      (by simp [sampleRow])).1
    [{ sampleStored with completed := !sampleStored.completed }]
    (toggleTaskWeb_found [] [] sampleStored 1 rfl (by simp))

/-! ### C10 -/

/-- C10 (confirmed): the record stored by addTask has completed false on
both backends, whatever completed value the caller supplied in the input
task; the spread in the web branch overrides it with false and the native
INSERT binds the literal 0. -/
theorem C10_completed_false (store : List ITask) (task : NewTask)
    (e : WebEnv) (f : FetchOutcome) (q : ℚ) (s2 : List ITask)
    (hok : addTaskWeb store task e f = .ok (q, s2))
    (d : NativeDB) (task2 : NewTask) (now : ℕ) :
    (∃ t2, s2 = t2 :: store ∧ t2.completed = false) ∧
    (∃ row : SqlRow, (addRowNative d task2 now).2.rows = d.rows ++ [row] ∧
      row.completed = 0 ∧ (rowToTask row).completed = false) := by
  constructor
  · unfold addTaskWeb at hok
    rcases hconv : (if truthy task.image_webview_path then
        convertImageToBase64 (task.image_webview_path.getD "") f
      else .ok "") with e1 | b
    · rw [hconv] at hok
      cases hok
    · rw [hconv] at hok
      cases hok
      exact ⟨mkWebTask task e b, rfl, rfl⟩
  · exact ⟨_, rfl, rfl, rfl⟩

/-- Witness for C10 at a concrete input whose completed field is supplied
as true by the caller. -/
theorem C10_wit :
    ∃ t2, [mkWebTask { sampleTask with completed := true } sampleEnv ""] =
      t2 :: ([] : List ITask) ∧ t2.completed = false :=
  (C10_completed_false [] { sampleTask with completed := true } sampleEnv
    .fetchFails (generateId sampleEnv)
    [mkWebTask { sampleTask with completed := true } sampleEnv ""] rfl
    ⟨1, []⟩ sampleTask 7).1

/-! ### C2 -/

/-- C2 (code evaluation): on the browser backend, when the image reference
cannot be inline-encoded because the FileReader step fails, addTask does
not degrade to an empty inline image: it fails, because the promise built
inside the try block of convertImageToBase64 is returned without being
awaited there, so its rejection bypasses the catch block that was meant to
absorb conversion failures. By contrast, when the fetch step fails, the
catch does absorb the failure and the task is committed with an empty
inline image, as the specification describes for every conversion
failure. -/
theorem C2_reader_failure_aborts :
    addTaskWeb [] { sampleTask with image_webview_path := some "blob:photo" }
        sampleEnv .readerFails = .error .imageReadFailed ∧
    addTaskWeb [] { sampleTask with image_webview_path := some "blob:photo" }
        sampleEnv .fetchFails =
      .ok (generateId sampleEnv,
        [mkWebTask { sampleTask with image_webview_path := some "blob:photo" }
          sampleEnv ""]) :=
  ⟨rfl, rfl⟩

/-! ### C5 -/

/-- Inversion of a successful web addTask: the returned id is the generated
one and the new store is the new record unshifted onto the old store. -/
theorem addTaskWeb_ok_store {s : List ITask} {task : NewTask} {e : WebEnv}
    {f : FetchOutcome} {p : ℚ × List ITask}
    (h : addTaskWeb s task e f = .ok p) :
    p.1 = generateId e ∧ ∃ b64, p.2 = mkWebTask task e b64 :: s := by
  unfold addTaskWeb at h
  rcases hconv : (if truthy task.image_webview_path then
      convertImageToBase64 (task.image_webview_path.getD "") f
    else .ok "") with e1 | b
  · rw [hconv] at h
    cases h
  · rw [hconv] at h
    cases h
    exact ⟨rfl, b, rfl⟩

/-- What a successful run of web addTask calls builds: texts in reverse
call order on top of the initial store, created timestamps likewise, and
one record per call. -/
theorem runAddsWeb_ok_inv : ∀ (cs : List WebAddCall) (s s2 : List ITask),
    runAddsWeb cs s = .ok s2 →
    s2.map ITask.text =
      (cs.map (fun c => c.task.text)).reverse ++ s.map ITask.text ∧
    s2.filterMap ITask.created_at =
      (cs.map (fun c => c.env.nowMs)).reverse ++
        s.filterMap ITask.created_at ∧
    s2.length = cs.length + s.length := by
  intro cs
  induction cs with
  | nil =>
    intro s s2 h
    cases h
    simp
  | cons c cs ih =>
    intro s s2 h
    unfold runAddsWeb at h
    rcases hadd : addTaskWeb s c.task c.env c.fetch with e1 | p
    · rw [hadd] at h
      cases h
    · rw [hadd] at h
      rcases addTaskWeb_ok_store hadd with ⟨hid, b, hst⟩
      rcases ih p.2 s2 h with ⟨h1, h2, h3⟩
      rw [hst] at h1 h2 h3
      refine ⟨?_, ?_, ?_⟩
      · rw [h1]
        simp [mkWebTask]
      · rw [h2]
        simp [mkWebTask]
      · rw [h3]
        simp
        omega

/-- getAllTasksWeb preserves the text of every record. -/
theorem getAllTasksWeb_text (s : List ITask) :
    (getAllTasksWeb s).map ITask.text = s.map ITask.text := by
  unfold getAllTasksWeb
  rw [List.map_map]
  exact List.map_congr_left fun t ht => rfl

/-- getAllTasksWeb preserves the created_at of every record. -/
theorem getAllTasksWeb_created (s : List ITask) :
    (getAllTasksWeb s).filterMap ITask.created_at =
      s.filterMap ITask.created_at := by
  unfold getAllTasksWeb
  rw [List.filterMap_map]
  exact congrFun (congrArg List.filterMap (funext fun t => rfl)) s

/-- getAllTasksWeb preserves the number of records. -/
theorem getAllTasksWeb_length (s : List ITask) :
    (getAllTasksWeb s).length = s.length :=
  List.length_map s _

/-- A list sorted ascending reads as sorted descending once reversed. -/
theorem sorted_ge_reverse {l : List ℕ} (h : l.Sorted (fun a b => a ≤ b)) :
    l.reverse.Sorted (fun a b => a ≥ b) := by
  rw [List.Sorted, List.pairwise_reverse]
  simpa [ge_iff_le] using h

/-- The records produced from rows carry exactly the row timestamps. -/
theorem filterMap_created_rows : ∀ l : List SqlRow,
    (l.map rowToTask).filterMap ITask.created_at = l.map SqlRow.created_at
  | [] => rfl
  | r :: l => by
    simp [rowToTask, filterMap_created_rows l]

/-- Row count after a native run. -/
theorem runAddsNative_rows_len : ∀ (cs : List NativeAddCall) (d : NativeDB),
    (runAddsNative cs d).2.rows.length = d.rows.length + cs.length := by
  intro cs
  induction cs with
  | nil => intro d; simp [runAddsNative]
  | cons c cs ih =>
    intro d
    have h := ih (addRowNative d c.task c.now).2
    have hrow : (addRowNative d c.task c.now).2.rows.length =
        d.rows.length + 1 := by
      simp [addRowNative]
    have hstep : (runAddsNative (c :: cs) d).2 =
        (runAddsNative cs (addRowNative d c.task c.now).2).2 := rfl
    rw [hstep, h, hrow]
    simp
    omega

/-- The native SELECT result is sorted by descending created_at. -/
theorem getAllNative_sorted (d : NativeDB) :
    (((List.insertionSort rowDescLe d.rows).map rowToTask).filterMap
      ITask.created_at).Sorted (fun a b => a ≥ b) := by
  rw [filterMap_created_rows]
  have hs : (List.insertionSort rowDescLe d.rows).Sorted rowDescLe :=
    List.sorted_insertionSort rowDescLe d.rows
  exact List.pairwise_map.2 hs

/-- C5 (confirmed): after N insertions and no deletions, getAllTasks
returns exactly N records, newest first. On the browser backend the texts
come back in exact reverse call order and the created timestamps are the
call timestamps reversed, hence descending whenever the clock is monotone
across the calls; on the native backend the SELECT orders by descending
created_at unconditionally; and on both backends inserting a, b, c in that
order yields the text order c, b, a. -/
theorem C5_getAll_ordering :
    (∀ (cs : List WebAddCall) (s2 : List ITask),
      runAddsWeb cs [] = .ok s2 →
      (getAllTasksWeb s2).length = cs.length ∧
      (getAllTasksWeb s2).map ITask.text =
        (cs.map (fun c => c.task.text)).reverse ∧
      (getAllTasksWeb s2).filterMap ITask.created_at =
        (cs.map (fun c => c.env.nowMs)).reverse ∧
      ((cs.map (fun c => c.env.nowMs)).Sorted (fun a b => a ≤ b) →
        ((getAllTasksWeb s2).filterMap ITask.created_at).Sorted
          (fun a b => a ≥ b))) ∧
    (∀ (cs : List NativeAddCall) (n0 : ℕ) (ts : List ITask),
      getAllTasksNative (some (runAddsNative cs ⟨n0, []⟩).2) = .ok ts →
      ts.length = cs.length ∧
      (ts.filterMap ITask.created_at).Sorted (fun a b => a ≥ b)) ∧
    (runAddsWeb
        [⟨sampleTask, ⟨1, 0⟩, .fetchFails⟩,
         ⟨{ sampleTask with text := "b" }, ⟨2, 0⟩, .fetchFails⟩,
         ⟨{ sampleTask with text := "c" }, ⟨3, 0⟩, .fetchFails⟩] []).map
      (fun s => (getAllTasksWeb s).map ITask.text) = .ok ["c", "b", "a"] ∧
    (getAllTasksNative (some (runAddsNative
        [⟨sampleTask, 1⟩, ⟨{ sampleTask with text := "b" }, 2⟩,
         ⟨{ sampleTask with text := "c" }, 3⟩] ⟨1, []⟩).2)).map
      (fun l => l.map ITask.text) = .ok ["c", "b", "a"] := by
  refine ⟨?_, ?_, rfl, rfl⟩
  · intro cs s2 h
    rcases runAddsWeb_ok_inv cs [] s2 h with ⟨h1, h2, h3⟩
    simp only [List.map_nil, List.filterMap_nil, List.append_nil,
      List.length_nil] at h1 h2 h3
    refine ⟨?_, ?_, ?_, ?_⟩
    · rw [getAllTasksWeb_length, h3]
      omega
    · rw [getAllTasksWeb_text, h1]
    · rw [getAllTasksWeb_created, h2]
    · intro hmono
      rw [getAllTasksWeb_created, h2]
      exact sorted_ge_reverse hmono
  · intro cs n0 ts h
    have hok : getAllTasksNative (some (runAddsNative cs ⟨n0, []⟩).2) =
        .ok (((List.insertionSort rowDescLe
          (runAddsNative cs ⟨n0, []⟩).2.rows)).map rowToTask) := rfl
    rw [hok] at h
    have hts := (Except.ok.inj h).symm
    subst hts
    constructor
    · rw [List.length_map, List.length_insertionSort]
      have := runAddsNative_rows_len cs ⟨n0, []⟩
      simpa using this
    · exact getAllNative_sorted _

/-- Witness for C5 at a concrete input. -/
theorem C5_wit :
    (getAllTasksWeb [mkWebTask sampleTask ⟨1, 0⟩ ""]).length = 1 :=
  ((C5_getAll_ordering).1 [⟨sampleTask, ⟨1, 0⟩, .fetchFails⟩]
    [mkWebTask sampleTask ⟨1, 0⟩ ""] rfl).1

/-! ### C6 -/

/-- Ids returned by a native run are consecutive from the sequence
value. -/
theorem runAddsNative_ids : ∀ (cs : List NativeAddCall) (d : NativeDB),
    (runAddsNative cs d).1 = List.range' d.nextId cs.length := by
  intro cs
  induction cs with
  | nil => intro d; rfl
  | cons c cs ih =>
    intro d
    simp only [List.length_cons]
    rw [List.range'_succ]
    simp [runAddsNative, addRowNative]
    exact ih _

/-- C6 (amended): the identifier returned by a web addTask call is
Date.now() + Math.random(); two calls return distinct identifiers provided
they do not draw both the same clock millisecond and the same random
value, the random draws lying in the unit interval as Math.random()
guarantees; with an equal clock reading and an equal random draw the
identifiers collide, so uniqueness is only as strong as the random source.
On the native backend the AUTOINCREMENT ids of a run are consecutive and
therefore pairwise distinct, with no side condition. -/
theorem C6_ids_distinct (s : List ITask) (task : NewTask) (e : WebEnv)
    (f : FetchOutcome) (p : ℚ × List ITask)
    (hok : addTaskWeb s task e f = .ok p)
    (e1 e2 : WebEnv) (h10 : 0 ≤ e1.rand) (h11 : e1.rand < 1)
    (h20 : 0 ≤ e2.rand) (h21 : e2.rand < 1)
    (hne : e1.nowMs ≠ e2.nowMs ∨ e1.rand ≠ e2.rand)
    (cs : List NativeAddCall) (d : NativeDB) :
    p.1 = generateId e ∧
    generateId e1 ≠ generateId e2 ∧
    (runAddsNative cs d).1.Nodup := by
  refine ⟨(addTaskWeb_ok_store hok).1, ?_, ?_⟩
  · intro heq
    unfold generateId at heq
    rcases Nat.lt_trichotomy e1.nowMs e2.nowMs with hlt | heqn | hgt
    · have hc : ((e1.nowMs : ℚ)) + 1 ≤ ((e2.nowMs : ℚ)) := by
        exact_mod_cast hlt
      linarith
    · rcases hne with hn | hr
      · exact hn heqn
      · apply hr
        have : ((e1.nowMs : ℚ)) = ((e2.nowMs : ℚ)) := by
          exact_mod_cast heqn
        linarith
    · have hc : ((e2.nowMs : ℚ)) + 1 ≤ ((e1.nowMs : ℚ)) := by
        exact_mod_cast hgt
      linarith
  · rw [runAddsNative_ids cs d]
    exact List.nodup_range' d.nextId cs.length

/-- Witness for C6 at a concrete input. -/
theorem C6_wit :
    (generateId sampleEnv, [mkWebTask sampleTask sampleEnv ""]).1 =
        generateId sampleEnv ∧
    generateId ⟨5, 0⟩ ≠ generateId ⟨6, 0⟩ ∧
    (runAddsNative [⟨sampleTask, 1⟩] ⟨1, []⟩).1.Nodup :=
  C6_ids_distinct [] sampleTask sampleEnv .fetchFails
    (generateId sampleEnv, [mkWebTask sampleTask sampleEnv ""]) rfl
    ⟨5, 0⟩ ⟨6, 0⟩ (by decide) (by decide) (by decide) (by decide)
    (Or.inl (by decide)) [⟨sampleTask, 1⟩] ⟨1, []⟩

/-- Counterexample for C6 as frozen: two different successive web addTask
calls whose environments share the clock millisecond and the random draw
return the same identifier, so identifiers are not unconditionally
distinct. -/
theorem C6_cex :
    (addTaskWeb [] sampleTask sampleEnv .fetchFails).map Prod.fst =
      .ok (generateId sampleEnv) ∧
    (addTaskWeb [mkWebTask sampleTask sampleEnv ""]
        { sampleTask with text := "b" } sampleEnv .fetchFails).map
      Prod.fst = .ok (generateId sampleEnv) ∧
    sampleTask ≠ { sampleTask with text := "b" } := by
  refine ⟨rfl, rfl, ?_⟩
  simp [sampleTask]

end IonicTasks
